import Mathlib

/-!
Verification of the follow-request / privacy-visibility core of a
social-media backend (Django, `backend/api/models.py` and
`backend/api/views.py`).

The relational state is embedded shallowly: each database table that the
follow workflow touches becomes a Lean list, and each view handler becomes
a function from the database state (plus the authenticated actor resolved
by the framework) to a response paired with the successor state.

Table of correspondences:
  models.py  class User          -> `Account`
  models.py  class Follow        -> an element of `DB.follows`   (follower, followed)
  models.py  class FollowRequest -> an element of `DB.requests`  (requester, recipient)
  models.py  class Notification  -> `Notif`, elements of `DB.notifs`
  models.py  class Post          -> `PostRec`, elements of `DB.posts`
  views.py   FollowUserView.post            -> `request_follow`
  views.py   UnfollowUserView.post          -> `unfollow_or_cancel`
  views.py   AcceptFollowRequestView.post   -> `accept_request`
  views.py   RejectFollowRequestView.post   -> `reject_request`
  views.py   CheckFollowStatusView.get      -> `check_status`
  views.py   UserDetailView.get             -> `get_profile`
  views.py   FollowersListView.get_queryset -> `followers_list`
  views.py   FollowingListView.get_queryset -> `following_list`
  views.py   UserPostsListView.get_queryset -> `user_posts_list`
  views.py   MarkNotificationAsReadView.post     -> `mark_read`
  views.py   MarkAllNotificationsAsReadView.post -> `mark_all_read`
-/

namespace Instagram

/-- A user account: the fields of `models.User` that the follow workflow
reads (opaque primary key, username used in notification messages, privacy
flag). -/
structure Account where
  uid : Nat
  username : String
  is_private : Bool
deriving Repr, DecidableEq

/-- Notification types, from `models.Notification.NOTIFICATION_TYPES`. -/
inductive NType where
  | follow_request
  | follow_accept
  | like
  | comment
  | mention
deriving Repr, DecidableEq

/-- A notification row: primary key, recipient, actor, type, message and
read flag, from `models.Notification` (the optional post reference and the
timestamp play no part in the claims). -/
structure Notif where
  nid : Nat
  recipient : Nat
  actor : Nat
  ntype : NType
  message : String
  is_read : Bool
deriving Repr, DecidableEq

/-- A post row: primary key and author, from `models.Post` (image, caption
and timestamps are irrelevant to visibility). -/
structure PostRec where
  pid : Nat
  author : Nat
deriving Repr, DecidableEq

/-- The database state seen by the follow workflow: the user table, the
Follow table as (follower, followed) pairs, the FollowRequest table as
(requester, recipient) pairs, the Notification table together with the
next fresh primary key, and the Post table. -/
structure DB where
  users : List Account
  follows : List (Nat × Nat)
  requests : List (Nat × Nat)
  notifs : List Notif
  nextNid : Nat
  posts : List PostRec
deriving Repr, DecidableEq

/-- Lookup `User.objects.get(id=uid)`: the user row with the given primary
key, if any. -/
def findUser (db : DB) (uid : Nat) : Option Account :=
  db.users.find? (fun u => u.uid == uid)

/-- Existence check `Follow.objects.filter(follower=a, followed=b).exists()`. -/
def followExists (db : DB) (a b : Nat) : Bool :=
  decide ((a, b) ∈ db.follows)

/-- Existence check
`FollowRequest.objects.filter(requester=a, recipient=b).exists()`. -/
def requestExists (db : DB) (a b : Nat) : Bool :=
  decide ((a, b) ∈ db.requests)

/-- Username of an account, used for notification message text
(`request.user.username`); the actor is authenticated, hence present. -/
def usernameOf (db : DB) (a : Nat) : String :=
  match findUser db a with
  | some u => u.username
  | none => ""

/-- Append `Notification.objects.create(recipient=..., actor=...,
notification_type=..., message=...)`: a fresh row with `is_read = False`. -/
def emit (db : DB) (recipient actor : Nat) (t : NType) (msg : String) : DB :=
  { db with
      notifs := db.notifs ++ [⟨db.nextNid, recipient, actor, t, msg, false⟩],
      nextNid := db.nextNid + 1 }

/-- HTTP-style responses of the write endpoints: 200 with a detail payload,
404 with an error payload, 400 with an error payload. -/
inductive Resp where
  | ok (detail : String)
  | notFound (error : String)
  | badRequest (error : String)
deriving Repr, DecidableEq

/-- FollowUserView.post (views.py lines 830-864): 404 when the target id
resolves to no user; 400 on self-follow, an existing edge, or an existing
request; otherwise create a FollowRequest plus a follow-request
notification when the target is private, or a Follow edge plus a
follow-accept notification when the target is public.  The public-path
response body is the flag payload `{followed: true}`, rendered here as
`Resp.ok "followed"`. -/
def request_follow (db : DB) (actor target : Nat) : Resp × DB :=
  match findUser db target with
  | none => (.notFound "User not found", db)
  | some to_follow =>
    if actor = target then (.badRequest "Cannot follow yourself", db)
    else if followExists db actor target then (.badRequest "Already following", db)
    else if requestExists db actor target then (.badRequest "Follow request already sent", db)
    else if to_follow.is_private then
      let db1 := { db with requests := db.requests ++ [(actor, target)] }
      (.ok "Follow request sent",
        emit db1 target actor .follow_request (usernameOf db actor ++ " wants to follow you"))
    else
      let db1 := { db with follows := db.follows ++ [(actor, target)] }
      (.ok "followed",
        emit db1 target actor .follow_accept (usernameOf db actor ++ " started following you"))

/-- UnfollowUserView.post (views.py lines 870-886): 404 when the target id
resolves to no user; delete the edge when one exists; otherwise delete the
pending request when one exists; otherwise 400. -/
def unfollow_or_cancel (db : DB) (actor target : Nat) : Resp × DB :=
  match findUser db target with
  | none => (.notFound "User not found", db)
  | some _ =>
    if followExists db actor target then
      (.ok "Unfollowed",
        { db with follows := db.follows.filter (fun p => p ≠ (actor, target)) })
    else if requestExists db actor target then
      (.ok "Follow request cancelled",
        { db with requests := db.requests.filter (fun p => p ≠ (actor, target)) })
    else (.badRequest "Not following or requested", db)

/-- Update applied by AcceptFollowRequestView and RejectFollowRequestView:
`Notification.objects.filter(recipient=me, actor=requester,
notification_type=follow_request).update(is_read=True)`. -/
def markReqNotifRead (me requester : Nat) (n : Notif) : Notif :=
  if n.recipient = me ∧ n.actor = requester ∧ n.ntype = NType.follow_request
  then { n with is_read := true } else n

/-- AcceptFollowRequestView.post (views.py lines 987-1015), invoked by the
recipient `me` on `requester_id`: 404 when the requester id resolves to no
user or no pending request exists; otherwise create the Follow edge,
delete the request, emit a follow-accept notification to the requester,
and mark the original follow-request notifications read. -/
def accept_request (db : DB) (me requester_id : Nat) : Resp × DB :=
  match findUser db requester_id with
  | none => (.notFound "User not found", db)
  | some _ =>
    if requestExists db requester_id me then
      let db1 := { db with
        follows := db.follows ++ [(requester_id, me)],
        requests := db.requests.filter (fun p => p ≠ (requester_id, me)) }
      let db2 := emit db1 requester_id me .follow_accept
        (usernameOf db me ++ " accepted your follow request")
      (.ok "Follow request accepted",
        { db2 with notifs := db2.notifs.map (markReqNotifRead me requester_id) })
    else (.notFound "No follow request found", db)

/-- RejectFollowRequestView.post (views.py lines 1021-1038): 404 when the
requester id resolves to no user or no pending request exists; otherwise
delete the request and mark the original follow-request notifications
read.  No edge side effect. -/
def reject_request (db : DB) (me requester_id : Nat) : Resp × DB :=
  match findUser db requester_id with
  | none => (.notFound "User not found", db)
  | some _ =>
    if requestExists db requester_id me then
      let db1 := { db with
        requests := db.requests.filter (fun p => p ≠ (requester_id, me)) }
      (.ok "Follow request rejected",
        { db1 with notifs := db1.notifs.map (markReqNotifRead me requester_id) })
    else (.notFound "No follow request found", db)

/-- Follow status payload of CheckFollowStatusView. -/
inductive FollowStatus where
  | self
  | following
  | requested
  | not_following
deriving Repr, DecidableEq

/-- CheckFollowStatusView.get (views.py lines 1100-1117): `none` models the
404 when the target id resolves to no user; otherwise self / following /
requested / not_following in source order.  Pure read. -/
def check_status (db : DB) (actor target : Nat) : Option FollowStatus :=
  match findUser db target with
  | none => none
  | some _ =>
    if target = actor then some .self
    else if followExists db actor target then some .following
    else if requestExists db actor target then some .requested
    else some .not_following

/-- Evaluation of the edge filter `Follow.objects.filter(
follower=request.user, followed=target).exists()` exactly as the views run
it on `request.user`: an authenticated viewer reads the Follow table, but
for an anonymous viewer Django's field-value preparation calls
int(AnonymousUser), which raises TypeError ("Cannot cast AnonymousUser to
int"); no follow view catches it, so the request surfaces as an unhandled
500-style server error.  The filter is only reached when the privacy
condition does not short-circuit first. -/
def viewerEdgeCheck (db : DB) (viewer : Option Nat) (target : Nat) : Except String Bool :=
  match viewer with
  | none => .error "Cannot cast AnonymousUser to int"
  | some v => .ok (followExists db v target)

/-- Responses of the profile-detail endpoint: 404, 403 with a detail
payload, the serialized profile, or the unhandled server error raised by
the edge filter on an anonymous viewer. -/
inductive ProfileResp where
  | notFound
  | forbidden (detail : String)
  | profile (u : Account)
  | serverError (msg : String)
deriving Repr, DecidableEq

/-- UserDetailView.get (views.py lines 960-973): 404 when the target id
resolves to no user; the owner always sees their own profile; for a
private target the edge filter is evaluated — raising the unhandled
TypeError when the viewer is anonymous (views.py line 971) — and a viewer
without an edge gets the 403 "This account is private"; a public target's
profile is returned to anyone, the `and` short-circuiting before the
filter. -/
def get_profile (db : DB) (viewer : Option Nat) (target : Nat) : ProfileResp :=
  match findUser db target with
  | none => .notFound
  | some u =>
    if viewer = some target then .profile u
    else if u.is_private then
      match viewerEdgeCheck db viewer target with
      | .error e => .serverError e
      | .ok b => if b then .profile u else .forbidden "This account is private"
    else .profile u

/-- Follower rows of a target resolved to user rows:
`User.objects.filter(id__in=Follow.objects.filter(followed_id=target)
.values_list(follower_id))`. -/
def followersUsers (db : DB) (target : Nat) : List Account :=
  db.users.filter (fun u => ((db.follows.filter (fun p => p.2 == target)).map Prod.fst).contains u.uid)

/-- Followed rows of a source resolved to user rows:
`User.objects.filter(id__in=Follow.objects.filter(follower_id=target)
.values_list(followed_id))`. -/
def followingUsers (db : DB) (target : Nat) : List Account :=
  db.users.filter (fun u => ((db.follows.filter (fun p => p.1 == target)).map Prod.snd).contains u.uid)

/-- Post rows of an author: `Post.objects.filter(user_id=target)` (the
source orders by descending creation time; order is not tracked here). -/
def postsOf (db : DB) (target : Nat) : List PostRec :=
  db.posts.filter (fun p => p.author == target)

/-- FollowersListView.get_queryset (views.py lines 893-911): an empty
queryset when the target id resolves to no user; the owner sees their own
followers; for a private target the edge filter is evaluated (views.py
line 906) — raising the unhandled TypeError when the viewer is anonymous
— and a viewer without an edge gets an empty queryset; otherwise the
follower list. -/
def followers_list (db : DB) (viewer : Option Nat) (target : Nat) : Except String (List Account) :=
  match findUser db target with
  | none => .ok []
  | some u =>
    if viewer = some target then .ok (followersUsers db target)
    else if u.is_private then
      match viewerEdgeCheck db viewer target with
      | .error e => .error e
      | .ok b => if b then .ok (followersUsers db target) else .ok []
    else .ok (followersUsers db target)

/-- FollowingListView.get_queryset (views.py lines 918-935): the same
privacy gate as the followers list (edge filter at views.py line 931),
over the followed set. -/
def following_list (db : DB) (viewer : Option Nat) (target : Nat) : Except String (List Account) :=
  match findUser db target with
  | none => .ok []
  | some u =>
    if viewer = some target then .ok (followingUsers db target)
    else if u.is_private then
      match viewerEdgeCheck db viewer target with
      | .error e => .error e
      | .ok b => if b then .ok (followingUsers db target) else .ok []
    else .ok (followingUsers db target)

/-- UserPostsListView.get_queryset (views.py lines 942-957): the same
privacy gate (edge filter at views.py line 954), over the target's
posts. -/
def user_posts_list (db : DB) (viewer : Option Nat) (target : Nat) : Except String (List PostRec) :=
  match findUser db target with
  | none => .ok []
  | some u =>
    if viewer = some target then .ok (postsOf db target)
    else if u.is_private then
      match viewerEdgeCheck db viewer target with
      | .error e => .error e
      | .ok b => if b then .ok (postsOf db target) else .ok []
    else .ok (postsOf db target)

/-- MarkNotificationAsReadView.post (views.py lines 1164-1172): fetch
`Notification.objects.get(id=nid, recipient=owner)` — 404 when absent —
then save the fetched row with `is_read = True`; the row is identified by
its primary key. -/
def mark_read (db : DB) (owner nid : Nat) : Resp × DB :=
  match db.notifs.find? (fun n => n.nid == nid && n.recipient == owner) with
  | none => (.notFound "Notification not found", db)
  | some _ =>
    (.ok "Notification marked as read",
      { db with notifs := db.notifs.map (fun n =>
          if n.nid = nid then { n with is_read := true } else n) })

/-- MarkAllNotificationsAsReadView.post (views.py lines 1178-1180):
`Notification.objects.filter(recipient=owner, is_read=False)
.update(is_read=True)`. -/
def mark_all_read (db : DB) (owner : Nat) : Resp × DB :=
  (.ok "All notifications marked as read",
    { db with notifs := db.notifs.map (fun n =>
        if n.recipient = owner ∧ n.is_read = false then { n with is_read := true } else n) })

/-- One follow-workflow operation, with the authenticated caller as first
argument: the four mutating endpoints of the workflow. -/
inductive Op where
  | req (actor target : Nat)
  | accept (me requester : Nat)
  | reject (me requester : Nat)
  | unfol (actor target : Nat)
deriving Repr, DecidableEq

/-- State reached after one operation (the response is discarded). -/
def apply_op (db : DB) : Op → DB
  | .req a t => (request_follow db a t).2
  | .accept m r => (accept_request db m r).2
  | .reject m r => (reject_request db m r).2
  | .unfol a t => (unfollow_or_cancel db a t).2

/-- State reached after a sequence of operations. -/
def run_ops (db : DB) (ops : List Op) : DB :=
  ops.foldl apply_op db

/-- Initial database: a user table with empty Follow, FollowRequest,
Notification and Post tables. -/
def initDB (users : List Account) : DB :=
  { users := users, follows := [], requests := [], notifs := [], nextNid := 0, posts := [] }

/-- Ledger well-formedness: no duplicate edge, no duplicate request, no
pair that is simultaneously edge and request, no self-edge and no
self-request. -/
def LedgerInv (db : DB) : Prop :=
  db.follows.Nodup ∧ db.requests.Nodup ∧
  (∀ p ∈ db.follows, p ∉ db.requests) ∧
  (∀ p ∈ db.follows, p.1 ≠ p.2) ∧
  (∀ p ∈ db.requests, p.1 ≠ p.2)

/-- Outcome of one FollowUserView.post call in a race of two calls on the
same (requester, recipient) pair: the 400 "Follow request already sent"
produced by the existence check (views.py line 842), an unhandled
database error produced by the UNIQUE (requester, recipient) constraint
of models.FollowRequest (models.py line 94) rejecting a duplicate INSERT
— the handler catches no IntegrityError, so this surfaces as a 500, not a
400 — or the 200 success. -/
inductive ReqResult where
  | conflict
  | integrityError
  | ok
deriving Repr, DecidableEq

/-- Control point of one in-flight FollowUserView.post call on the pair:
before the existence checks (views.py lines 839-843), between the checks
and the INSERT (views.py line 846), or finished.  The handler opens no
transaction around the two database round-trips (no transaction.atomic in
the follow views), so the other call may run between them. -/
inductive Phase where
  | start
  | checked
  | finished (r : ReqResult)
deriving Repr, DecidableEq

/-- One database round-trip of one call, against `rows` persisted
FollowRequest(a, b) rows: at `start` the existence check either fails
with the 400 conflict or proceeds; at `checked` the INSERT persists a row
when none exists and is otherwise rejected by the unique constraint. -/
def stepThread (rows : Nat) : Phase → Nat × Phase
  | .start => if rows ≠ 0 then (rows, .finished .conflict) else (rows, .checked)
  | .checked => if rows ≠ 0 then (rows, .finished .integrityError) else (rows + 1, .finished .ok)
  | .finished r => (rows, .finished r)

/-- Shared state of the race: the persisted row count for the pair and
the control points of the two calls. -/
structure RaceState where
  rows : Nat
  t1 : Phase
  t2 : Phase
deriving Repr, DecidableEq

/-- Interleaving step: the scheduled call performs its next round-trip. -/
def raceStep (s : RaceState) (which : Bool) : RaceState :=
  if which then
    let r := stepThread s.rows s.t1
    { s with rows := r.1, t1 := r.2 }
  else
    let r := stepThread s.rows s.t2
    { s with rows := r.1, t2 := r.2 }

/-- Run a schedule: each entry names the call that performs its next
database round-trip; both calls start with the pair in the NONE state,
the target private, the users distinct and existing. -/
def raceRun (sched : List Bool) : RaceState :=
  sched.foldl raceStep ⟨0, .start, .start⟩

/-- Number of calls that have finished with the 200 success. -/
def okInd (p : Phase) : Nat :=
  if p = Phase.finished .ok then 1 else 0

/-- A call that has finished with either error outcome. -/
def failedPhase (p : Phase) : Prop :=
  p = Phase.finished .conflict ∨ p = Phase.finished .integrityError

/-- Race invariant: at most one row is ever persisted, the row count
equals the number of successful calls, and a call can only have failed
once the row exists. -/
def RaceInv (s : RaceState) : Prop :=
  s.rows ≤ 1 ∧ s.rows = okInd s.t1 + okInd s.t2 ∧
  (failedPhase s.t1 → s.rows = 1) ∧ (failedPhase s.t2 → s.rows = 1)

/-- Concrete account for witness instances: public user 1. -/
def accA : Account := ⟨1, "alice", false⟩

/-- Concrete account for witness instances: private user 2. -/
def accB : Account := ⟨2, "bob", true⟩

/-- Concrete account for witness instances: public user 3. -/
def accC : Account := ⟨3, "carol", false⟩

/-- Concrete database for witness instances: three users, empty ledger. -/
def dbW : DB := initDB [accA, accB, accC]

/-- Concrete database for witness instances: a pending follow request
from user 1 to user 2. -/
def dbReq : DB :=
  { users := [accA, accB, accC], follows := [], requests := [(1, 2)],
    notifs := [], nextNid := 0, posts := [] }

/-- Concrete database for witness instances: user 1 follows user 3. -/
def dbEdge : DB :=
  { users := [accA, accB, accC], follows := [(1, 3)], requests := [],
    notifs := [], nextNid := 0, posts := [] }

/-- Concrete notification for witness instances: a follow request from
user 1 to user 2, unread. -/
def notifA : Notif := ⟨0, 2, 1, .follow_request, "m1", false⟩

/-- Concrete notification for witness instances: a follow accept from
user 2 to user 1, unread. -/
def notifB : Notif := ⟨1, 1, 2, .follow_accept, "m2", false⟩

/-- Concrete database for witness instances: two notifications. -/
def dbNotif : DB :=
  { users := [accA, accB, accC], follows := [], requests := [],
    notifs := [notifA, notifB], nextNid := 2, posts := [] }

lemma emit_users (db : DB) (r a : Nat) (t : NType) (m : String) :
    (emit db r a t m).users = db.users := rfl

lemma emit_follows (db : DB) (r a : Nat) (t : NType) (m : String) :
    (emit db r a t m).follows = db.follows := rfl

lemma emit_requests (db : DB) (r a : Nat) (t : NType) (m : String) :
    (emit db r a t m).requests = db.requests := rfl

lemma followExists_iff (db : DB) (a b : Nat) :
    followExists db a b = true ↔ (a, b) ∈ db.follows := by
  simp [followExists]

lemma requestExists_iff (db : DB) (a b : Nat) :
    requestExists db a b = true ↔ (a, b) ∈ db.requests := by
  simp [requestExists]

lemma ledgerInv_req (db : DB) (a t : Nat) (h : LedgerInv db) :
    LedgerInv (request_follow db a t).2 := by
  obtain ⟨h1, h2, h3, h4, h5⟩ := h
  cases hf : findUser db t with
  | none => simpa [request_follow, hf] using ⟨h1, h2, h3, h4, h5⟩
  | some u =>
    simp only [request_follow, hf]
    split_ifs with hat hfe hre hpriv
    · exact ⟨h1, h2, h3, h4, h5⟩
    · exact ⟨h1, h2, h3, h4, h5⟩
    · exact ⟨h1, h2, h3, h4, h5⟩
    · -- private target: a fresh request row is appended
      rw [followExists_iff] at hfe
      rw [requestExists_iff] at hre
      refine ⟨h1, ?_, ?_, h4, ?_⟩
      · simp only [emit_requests, List.nodup_append, List.nodup_singleton]
        exact ⟨h2, trivial, by simp [List.disjoint_singleton]; exact hre⟩
      · intro p hp
        simp only [emit_requests, List.mem_append, List.mem_singleton]
        rintro (hmem | hpeq)
        · exact h3 p hp hmem
        · exact hfe (hpeq ▸ hp)
      · intro p hp
        simp only [emit_requests, List.mem_append, List.mem_singleton] at hp
        rcases hp with hmem | hpeq
        · exact h5 p hmem
        · subst hpeq; exact hat
    · -- public target: a fresh edge row is appended
      rw [followExists_iff] at hfe
      rw [requestExists_iff] at hre
      refine ⟨?_, h2, ?_, ?_, h5⟩
      · simp only [emit_follows, List.nodup_append, List.nodup_singleton]
        exact ⟨h1, trivial, by simp [List.disjoint_singleton]; exact hfe⟩
      · intro p hp
        simp only [emit_follows, List.mem_append, List.mem_singleton] at hp
        rcases hp with hmem | hpeq
        · exact h3 p hmem
        · subst hpeq; exact hre
      · intro p hp
        simp only [emit_follows, List.mem_append, List.mem_singleton] at hp
        rcases hp with hmem | hpeq
        · exact h4 p hmem
        · subst hpeq; exact hat

lemma ledgerInv_accept (db : DB) (me r : Nat) (h : LedgerInv db) :
    LedgerInv (accept_request db me r).2 := by
  obtain ⟨h1, h2, h3, h4, h5⟩ := h
  cases hf : findUser db r with
  | none => simpa [accept_request, hf] using ⟨h1, h2, h3, h4, h5⟩
  | some u =>
    simp only [accept_request, hf]
    split_ifs with hre
    · rw [requestExists_iff] at hre
      have hnofe : (r, me) ∉ db.follows := fun hmem => h3 _ hmem hre
      refine ⟨?_, ?_, ?_, ?_, ?_⟩
      · simp only [emit_follows, List.nodup_append, List.nodup_singleton]
        exact ⟨h1, trivial, by simp [List.disjoint_singleton]; exact hnofe⟩
      · exact h2.filter _
      · intro p hp
        simp only [emit_follows, List.mem_append, List.mem_singleton] at hp
        intro hmem
        simp only [emit_requests] at hmem
        have hmem0 : p ∈ db.requests := List.mem_of_mem_filter hmem
        rcases hp with hold | hpeq
        · exact h3 p hold hmem0
        · subst hpeq
          simp only [List.mem_filter, decide_eq_true_eq] at hmem
          exact hmem.2 rfl
      · intro p hp
        simp only [emit_follows, List.mem_append, List.mem_singleton] at hp
        rcases hp with hold | hpeq
        · exact h4 p hold
        · subst hpeq; exact h5 _ hre
      · intro p hp
        exact h5 p (List.mem_of_mem_filter hp)
    · exact ⟨h1, h2, h3, h4, h5⟩

lemma ledgerInv_reject (db : DB) (me r : Nat) (h : LedgerInv db) :
    LedgerInv (reject_request db me r).2 := by
  obtain ⟨h1, h2, h3, h4, h5⟩ := h
  cases hf : findUser db r with
  | none => simpa [reject_request, hf] using ⟨h1, h2, h3, h4, h5⟩
  | some u =>
    simp only [reject_request, hf]
    split_ifs with hre
    · refine ⟨h1, h2.filter _, ?_, h4, ?_⟩
      · intro p hp hmem
        exact h3 p hp (List.mem_of_mem_filter hmem)
      · intro p hp
        exact h5 p (List.mem_of_mem_filter hp)
    · exact ⟨h1, h2, h3, h4, h5⟩

lemma ledgerInv_unfol (db : DB) (a t : Nat) (h : LedgerInv db) :
    LedgerInv (unfollow_or_cancel db a t).2 := by
  obtain ⟨h1, h2, h3, h4, h5⟩ := h
  cases hf : findUser db t with
  | none => simpa [unfollow_or_cancel, hf] using ⟨h1, h2, h3, h4, h5⟩
  | some u =>
    simp only [unfollow_or_cancel, hf]
    split_ifs with hfe hre
    · refine ⟨h1.filter _, h2, ?_, ?_, h5⟩
      · intro p hp
        exact h3 p (List.mem_of_mem_filter hp)
      · intro p hp
        exact h4 p (List.mem_of_mem_filter hp)
    · refine ⟨h1, h2.filter _, ?_, h4, ?_⟩
      · intro p hp hmem
        exact h3 p hp (List.mem_of_mem_filter hmem)
      · intro p hp
        exact h5 p (List.mem_of_mem_filter hp)
    · exact ⟨h1, h2, h3, h4, h5⟩

lemma ledgerInv_apply_op (db : DB) (op : Op) (h : LedgerInv db) :
    LedgerInv (apply_op db op) := by
  cases op with
  | req a t => exact ledgerInv_req db a t h
  | accept m r => exact ledgerInv_accept db m r h
  | reject m r => exact ledgerInv_reject db m r h
  | unfol a t => exact ledgerInv_unfol db a t h

lemma ledgerInv_run_ops (db : DB) (ops : List Op) (h : LedgerInv db) :
    LedgerInv (run_ops db ops) := by
  induction ops generalizing db with
  | nil => exact h
  | cons op rest ih => exact ih _ (ledgerInv_apply_op db op h)

lemma ledgerInv_initDB (users : List Account) : LedgerInv (initDB users) := by
  refine ⟨?_, ?_, ?_, ?_, ?_⟩ <;> simp [initDB]

lemma count_le_one_of_nodup {α : Type} [BEq α] [LawfulBEq α] {l : List α}
    (h : l.Nodup) (x : α) : l.count x ≤ 1 := by
  induction l with
  | nil => simp
  | cons y ys ih =>
    rw [List.count_cons]
    rcases List.nodup_cons.mp h with ⟨hy, hys⟩
    by_cases hxy : y == x
    · have hxeq : y = x := eq_of_beq hxy
      subst hxeq
      simp [List.count_eq_zero.mpr hy, hxy]
    · simp only [hxy, if_false]
      exact Nat.le_trans (Nat.le_of_eq (Nat.add_zero _)) (ih hys)

/-- C1: in every state reachable by any sequence of follow-workflow
operations from an initial state with an empty ledger, every ordered pair
(a, b) occurs at most once in the Follow table and at most once in the
FollowRequest table, never in both at the same instant, and no self-edge
(a, a) exists. -/
theorem c1_ledger_invariant (users : List Account) (ops : List Op) (a b : Nat) :
    (run_ops (initDB users) ops).follows.count (a, b) ≤ 1 ∧
    (run_ops (initDB users) ops).requests.count (a, b) ≤ 1 ∧
    ¬((a, b) ∈ (run_ops (initDB users) ops).follows ∧
      (a, b) ∈ (run_ops (initDB users) ops).requests) ∧
    (a, a) ∉ (run_ops (initDB users) ops).follows := by
  obtain ⟨h1, h2, h3, h4, h5⟩ := ledgerInv_run_ops (initDB users) ops (ledgerInv_initDB users)
  refine ⟨count_le_one_of_nodup h1 _, count_le_one_of_nodup h2 _, ?_, ?_⟩
  · rintro ⟨hfe, hre⟩
    exact h3 _ hfe hre
  · intro hfe
    exact h4 _ hfe rfl

/-- C2: for existing users a ≠ b with no edge and no pending request,
request_follow on a private target creates exactly one FollowRequest row,
no edge, and one follow-request notification to the target, after which
check_status reports requested; on a public target it creates exactly one
Follow edge, no request, and one follow-accept notification, after which
check_status reports following. -/
theorem c2_request_follow_success (db : DB) (a b : Nat) (ua ub : Account)
    (hA : findUser db a = some ua) (hB : findUser db b = some ub) (hab : a ≠ b)
    (hnoE : (a, b) ∉ db.follows) (hnoR : (a, b) ∉ db.requests) :
    (ub.is_private = true →
      (request_follow db a b).1 = .ok "Follow request sent" ∧
      (request_follow db a b).2.requests = db.requests ++ [(a, b)] ∧
      (request_follow db a b).2.requests.count (a, b) = 1 ∧
      (request_follow db a b).2.follows = db.follows ∧
      (a, b) ∉ (request_follow db a b).2.follows ∧
      (request_follow db a b).2.notifs = db.notifs ++
        [⟨db.nextNid, b, a, .follow_request, ua.username ++ " wants to follow you", false⟩] ∧
      check_status (request_follow db a b).2 a b = some .requested) ∧
    (ub.is_private = false →
      (request_follow db a b).1 = .ok "followed" ∧
      (request_follow db a b).2.follows = db.follows ++ [(a, b)] ∧
      (request_follow db a b).2.follows.count (a, b) = 1 ∧
      (request_follow db a b).2.requests = db.requests ∧
      (a, b) ∉ (request_follow db a b).2.requests ∧
      (request_follow db a b).2.notifs = db.notifs ++
        [⟨db.nextNid, b, a, .follow_accept, ua.username ++ " started following you", false⟩] ∧
      check_status (request_follow db a b).2 a b = some .following) := by
  have hfe : followExists db a b = false := by
    simp only [followExists, decide_eq_false_iff_not]
    exact hnoE
  have hre : requestExists db a b = false := by
    simp only [requestExists, decide_eq_false_iff_not]
    exact hnoR
  have huser : usernameOf db a = ua.username := by
    simp [usernameOf, hA]
  have hba : b ≠ a := Ne.symm hab
  constructor
  · intro hpriv
    simp only [request_follow, hB, if_neg hab, hfe, Bool.false_eq_true, if_false, hre,
      hpriv, if_true, emit, huser]
    refine ⟨trivial, trivial, ?_, trivial, hnoE, trivial, ?_⟩
    · simp [List.count_append, List.count_eq_zero.mpr hnoR, List.count_cons]
    · simp only [check_status, findUser] at *
      simp [hB, if_neg hba, followExists, requestExists, hnoE]
  · intro hpub
    simp only [request_follow, hB, if_neg hab, hfe, Bool.false_eq_true, if_false, hre,
      hpub, emit, huser]
    refine ⟨trivial, trivial, ?_, trivial, hnoR, trivial, ?_⟩
    · simp [List.count_append, List.count_eq_zero.mpr hnoE, List.count_cons]
    · simp only [check_status, findUser] at *
      simp [hB, if_neg hba, followExists, requestExists]

/-- C3: with requester a and recipient b both existing and distinct,
accept_request returns not-found exactly when no FollowRequest(a, b)
exists (so a second accept on the same pair yields not-found); when the
request exists, accepting deletes it, creates the Follow edge so that
check_status reports following, appends a follow-accept notification to
the requester, and marks the original follow-request notifications from a
to b as read. -/
theorem c3_accept_request (db : DB) (a b : Nat) (ua ub : Account)
    (hA : findUser db a = some ua) (hB : findUser db b = some ub) (hab : a ≠ b) :
    ((∃ e, (accept_request db b a).1 = .notFound e) ↔ (a, b) ∉ db.requests) ∧
    ((a, b) ∈ db.requests →
      (accept_request db b a).1 = .ok "Follow request accepted" ∧
      (a, b) ∉ (accept_request db b a).2.requests ∧
      (a, b) ∈ (accept_request db b a).2.follows ∧
      check_status (accept_request db b a).2 a b = some .following ∧
      (accept_request db b a).2.notifs = db.notifs.map (markReqNotifRead b a) ++
        [⟨db.nextNid, a, b, .follow_accept, ub.username ++ " accepted your follow request", false⟩] ∧
      (∃ e, (accept_request (accept_request db b a).2 b a).1 = .notFound e)) := by
  have hba : b ≠ a := Ne.symm hab
  have huser : usernameOf db b = ub.username := by
    simp [usernameOf, hB]
  by_cases hmem : (a, b) ∈ db.requests
  · have hre : requestExists db a b = true := by
      simp only [requestExists, decide_eq_true_eq]
      exact hmem
    refine ⟨⟨?_, fun hnot => absurd hmem hnot⟩, fun _ => ?_⟩
    · rintro ⟨e, he⟩
      simp only [accept_request, hA, hre, if_true] at he
      cases he
    · simp only [accept_request, hA, hre, if_true, emit, huser]
      refine ⟨trivial, ?_, ?_, ?_, ?_, ?_⟩
      · simp
      · simp
      · simp only [check_status, findUser] at *
        simp [hB, if_neg hba, followExists]
      · simp only [List.map_append, List.map_cons, List.map_nil]
        simp [markReqNotifRead, hab]
      · refine ⟨"No follow request found", ?_⟩
        simp only [accept_request, findUser] at *
        simp [hA, requestExists]
  · have hre : requestExists db a b = false := by
      simp only [requestExists, decide_eq_false_iff_not]
      exact hmem
    refine ⟨⟨fun _ => hmem, fun _ => ⟨"No follow request found", ?_⟩⟩, fun h => absurd h hmem⟩
    simp [accept_request, hA, hre]

/-- C4 counterexample: an anonymous read of the private user 2's profile
does not produce the claimed 403 "This account is private" — the edge
filter raises the unhandled TypeError on AnonymousUser, a 500-style
server error — even though the target is private and no edge exists at
all. -/
theorem c4_profile_visibility_counterexample :
    accB.is_private = true ∧ dbW.follows = [] ∧
    get_profile dbW none 2 = .serverError "Cannot cast AnonymousUser to int" ∧
    get_profile dbW none 2 ≠ .forbidden "This account is private" := by
  refine ⟨by decide, by decide, by decide, ?_⟩
  intro h
  rw [show get_profile dbW none 2 =
    ProfileResp.serverError "Cannot cast AnonymousUser to int" from by decide] at h
  cases h

/-- C4 amended: retrieving the profile of an existing private target is
rejected with the 403-style "This account is private" payload for every
authenticated viewer who is not the owner and holds no edge onto the
target; an anonymous viewer of a private target instead triggers the
unhandled TypeError raised by filtering Follow on AnonymousUser, a
500-style server error rather than the 403; when the target is public
(the privacy check short-circuits before the filter, so this includes
anonymous viewers), or the viewer is the owner, or an edge exists, the
profile is returned. -/
theorem c4_profile_visibility (db : DB) (viewer : Option Nat) (t : Nat) (u : Account)
    (hT : findUser db t = some u) :
    (∀ v, viewer = some v → v ≠ t → u.is_private = true → (v, t) ∉ db.follows →
      get_profile db viewer t = .forbidden "This account is private") ∧
    (viewer = none → u.is_private = true →
      get_profile db viewer t = .serverError "Cannot cast AnonymousUser to int") ∧
    (u.is_private = false ∨ viewer = some t ∨
        (∃ v, viewer = some v ∧ (v, t) ∈ db.follows) →
      get_profile db viewer t = .profile u) := by
  refine ⟨?_, ?_, ?_⟩
  · rintro v rfl hvt hpriv hnoE
    simp [get_profile, hT, hvt, hpriv, viewerEdgeCheck, followExists, hnoE]
  · rintro rfl hpriv
    simp [get_profile, hT, hpriv, viewerEdgeCheck]
  · rintro (hpub | hself | ⟨v, rfl, hmem⟩)
    · by_cases hv : viewer = some t <;> simp [get_profile, hT, hv, hpub]
    · simp [get_profile, hT, hself]
    · by_cases hvt : v = t
      · simp [get_profile, hT, hvt]
      · by_cases hp : u.is_private <;>
          simp [get_profile, hT, hvt, hp, viewerEdgeCheck, followExists, hmem]

/-- C5 counterexample: the followers list of the private user 2 read by
an anonymous viewer is not the claimed empty result set — the edge filter
raises the unhandled TypeError on AnonymousUser, so the read errors
instead of succeeding — and likewise for the following and posts lists. -/
theorem c5_list_visibility_counterexample :
    accB.is_private = true ∧ dbW.follows = [] ∧
    followers_list dbW none 2 = .error "Cannot cast AnonymousUser to int" ∧
    following_list dbW none 2 = .error "Cannot cast AnonymousUser to int" ∧
    user_posts_list dbW none 2 = .error "Cannot cast AnonymousUser to int" ∧
    followers_list dbW none 2 ≠ .ok [] := by
  refine ⟨by decide, by decide, rfl, rfl, rfl, ?_⟩
  intro h
  rw [show followers_list dbW none 2 =
    Except.error "Cannot cast AnonymousUser to int" from rfl] at h
  cases h

/-- C5 amended: the three list reads of an existing private target —
followers, following, posts — succeed with an empty result set for every
authenticated viewer who is not the owner and holds no edge onto the
target; an anonymous viewer of a private target instead triggers the
unhandled TypeError raised by filtering Follow on AnonymousUser, an error
rather than an empty list; an authorized viewer (owner, public target —
anonymous included, since the privacy check short-circuits — or edge
holder) receives the full corresponding set. -/
theorem c5_list_visibility (db : DB) (viewer : Option Nat) (t : Nat) (u : Account)
    (hT : findUser db t = some u) :
    (∀ v, viewer = some v → v ≠ t → u.is_private = true → (v, t) ∉ db.follows →
      followers_list db viewer t = .ok [] ∧ following_list db viewer t = .ok [] ∧
      user_posts_list db viewer t = .ok []) ∧
    (viewer = none → u.is_private = true →
      followers_list db viewer t = .error "Cannot cast AnonymousUser to int" ∧
      following_list db viewer t = .error "Cannot cast AnonymousUser to int" ∧
      user_posts_list db viewer t = .error "Cannot cast AnonymousUser to int") ∧
    (viewer = some t ∨ u.is_private = false ∨
        (∃ v, viewer = some v ∧ (v, t) ∈ db.follows) →
      followers_list db viewer t = .ok (followersUsers db t) ∧
      following_list db viewer t = .ok (followingUsers db t) ∧
      user_posts_list db viewer t = .ok (postsOf db t)) := by
  refine ⟨?_, ?_, ?_⟩
  · rintro v rfl hvt hpriv hnoE
    refine ⟨?_, ?_, ?_⟩ <;>
      simp [followers_list, following_list, user_posts_list, hT, hvt, hpriv,
        viewerEdgeCheck, followExists, hnoE]
  · rintro rfl hpriv
    refine ⟨?_, ?_, ?_⟩ <;>
      simp [followers_list, following_list, user_posts_list, hT, hpriv, viewerEdgeCheck]
  · rintro (hself | hpub | ⟨v, rfl, hmem⟩)
    · refine ⟨?_, ?_, ?_⟩ <;>
        simp [followers_list, following_list, user_posts_list, hT, hself]
    · refine ⟨?_, ?_, ?_⟩ <;>
        (by_cases hv : viewer = some t <;>
          simp [followers_list, following_list, user_posts_list, hT, hv, hpub])
    · by_cases hvt : v = t
      · refine ⟨?_, ?_, ?_⟩ <;>
          simp [followers_list, following_list, user_posts_list, hT, hvt]
      · refine ⟨?_, ?_, ?_⟩ <;>
          (by_cases hp : u.is_private <;>
            simp [followers_list, following_list, user_posts_list, hT, hvt, hp,
              viewerEdgeCheck, followExists, hmem])

/-- C6: from the NONE state (no edge, no request) for a pair of existing
users a ≠ b, request_follow followed by unfollow_or_cancel restores the
relationship ledger for the pair exactly — the Follow table and the
FollowRequest table equal their values before the request — whether the
target is private (cancel path) or public (unfollow path). -/
theorem c6_round_trip (db : DB) (a b : Nat) (ub : Account)
    (hB : findUser db b = some ub) (hab : a ≠ b)
    (hnoE : (a, b) ∉ db.follows) (hnoR : (a, b) ∉ db.requests) :
    (unfollow_or_cancel (request_follow db a b).2 a b).2.follows = db.follows ∧
    (unfollow_or_cancel (request_follow db a b).2 a b).2.requests = db.requests := by
  have hfe : followExists db a b = false := by
    simp only [followExists, decide_eq_false_iff_not]
    exact hnoE
  have hre : requestExists db a b = false := by
    simp only [requestExists, decide_eq_false_iff_not]
    exact hnoR
  simp only [findUser] at hB
  by_cases hpriv : ub.is_private = true
  · simp only [request_follow, findUser, hB, if_neg hab, hfe, Bool.false_eq_true, if_false,
      hre, hpriv, if_true, emit]
    simp only [unfollow_or_cancel, findUser, hB]
    simp [followExists, requestExists, hnoE, List.filter_append, List.filter_eq_self]
    intro x y hxy hxa hyb
    subst hxa
    subst hyb
    exact hnoR hxy
  · simp only [request_follow, findUser, hB, if_neg hab, hfe, Bool.false_eq_true, if_false,
      hre, hpriv, emit]
    simp only [unfollow_or_cancel, findUser, hB]
    simp [followExists, requestExists, List.filter_append, List.filter_eq_self]
    intro x y hxy hxa hyb
    subst hxa
    subst hyb
    exact hnoE hxy

/-- C7: request_follow fails with 404 on a nonexistent target id, and with
a 400-style error on self-follow (whatever the privacy flag), on an
existing edge ("Already following"), and on an existing pending request
("Follow request already sent"); in each error case the returned state is
exactly the input state — no edge, request, or notification row is
created. -/
theorem c7_request_follow_errors (db : DB) (a t : Nat) :
    (findUser db t = none →
      request_follow db a t = (.notFound "User not found", db)) ∧
    (∀ u, findUser db t = some u → a = t →
      request_follow db a t = (.badRequest "Cannot follow yourself", db)) ∧
    (∀ u, findUser db t = some u → a ≠ t → (a, t) ∈ db.follows →
      request_follow db a t = (.badRequest "Already following", db)) ∧
    (∀ u, findUser db t = some u → a ≠ t → (a, t) ∉ db.follows → (a, t) ∈ db.requests →
      request_follow db a t = (.badRequest "Follow request already sent", db)) := by
  refine ⟨?_, ?_, ?_, ?_⟩
  · intro h
    simp [request_follow, h]
  · intro u hu hat
    simp [request_follow, hu, hat]
  · intro u hu hat hmem
    simp [request_follow, hu, hat, followExists, hmem]
  · intro u hu hat hnoE hmem
    simp [request_follow, hu, hat, followExists, hnoE, requestExists, hmem]

/-- C8: with distinct notification primary keys, mark_read succeeds
exactly for the recipient — it sets the fetched row's read flag, keeps
every other row, and preserves the table length — and returns 404 leaving
the state untouched for any other caller; mark_all_read flips the read
flag to true on every notification of the owner, changes no other field
and no other row, and preserves the table length. -/
theorem c8_notification_read_marking (db : DB) (owner : Nat) (n : Notif)
    (hmem : n ∈ db.notifs) (hnodup : (db.notifs.map (fun x => x.nid)).Nodup) :
    (owner = n.recipient →
      (mark_read db owner n.nid).1 = .ok "Notification marked as read" ∧
      { n with is_read := true } ∈ (mark_read db owner n.nid).2.notifs ∧
      (∀ m ∈ db.notifs, m.nid ≠ n.nid → m ∈ (mark_read db owner n.nid).2.notifs) ∧
      (mark_read db owner n.nid).2.notifs.length = db.notifs.length) ∧
    (owner ≠ n.recipient →
      mark_read db owner n.nid = (.notFound "Notification not found", db)) ∧
    ((∀ m ∈ (mark_all_read db owner).2.notifs, m.recipient = owner → m.is_read = true) ∧
      (∀ m ∈ db.notifs, m.recipient ≠ owner → m ∈ (mark_all_read db owner).2.notifs) ∧
      (∀ m ∈ db.notifs, m.recipient = owner →
        { m with is_read := true } ∈ (mark_all_read db owner).2.notifs) ∧
      (mark_all_read db owner).2.notifs.length = db.notifs.length) := by
  have hinj := List.inj_on_of_nodup_map hnodup
  refine ⟨?_, ?_, ?_, ?_, ?_, ?_⟩
  · intro hown
    have hfind : (db.notifs.find? (fun x => x.nid == n.nid && x.recipient == owner)).isSome := by
      rw [List.find?_isSome]
      exact ⟨n, hmem, by simp [hown]⟩
    obtain ⟨m, hm⟩ := Option.isSome_iff_exists.mp hfind
    refine ⟨?_, ?_, ?_, ?_⟩
    · simp [mark_read, hm]
    · simp only [mark_read, hm]
      exact List.mem_map.mpr ⟨n, hmem, by simp⟩
    · intro x hx hxne
      simp only [mark_read, hm]
      exact List.mem_map.mpr ⟨x, hx, by simp [hxne]⟩
    · simp [mark_read, hm]
  · intro hown
    have hfind : db.notifs.find? (fun x => x.nid == n.nid && x.recipient == owner) = none := by
      rw [List.find?_eq_none]
      intro x hx
      simp only [Bool.and_eq_true, beq_iff_eq, not_and]
      intro hxnid hxrec
      exact hown (hxrec ▸ congrArg Notif.recipient (hinj hx hmem hxnid) ▸ rfl)
    simp [mark_read, hfind]
  · intro m hm hrec
    simp only [mark_all_read] at hm
    obtain ⟨x, hx, hfx⟩ := List.mem_map.mp hm
    by_cases hc : x.recipient = owner ∧ x.is_read = false
    · rw [if_pos hc] at hfx
      rw [← hfx]
    · rw [if_neg hc] at hfx
      rw [hfx] at hc
      rcases Bool.eq_false_or_eq_true m.is_read with hr | hr
      · exact hr
      · exact absurd ⟨hrec, hr⟩ hc
  · intro m hm hrec
    simp only [mark_all_read]
    exact List.mem_map.mpr ⟨m, hm, by simp [hrec]⟩
  · intro m hm hrec
    simp only [mark_all_read]
    refine List.mem_map.mpr ⟨m, hm, ?_⟩
    cases m with
    | mk x1 x2 x3 x4 x5 x6 =>
      simp only at hrec
      cases x6 <;> simp [hrec]
  · simp [mark_all_read]

/-- C10: a target id that resolves to no user row makes the three list
reads return an empty result set rather than an error, while the follow
workflow operations, the status check and the profile read return 404 for
the same id. -/
theorem c10_nonexistent_target (db : DB) (viewer : Option Nat) (actor t : Nat)
    (h : findUser db t = none) :
    followers_list db viewer t = .ok [] ∧
    following_list db viewer t = .ok [] ∧
    user_posts_list db viewer t = .ok [] ∧
    request_follow db actor t = (.notFound "User not found", db) ∧
    unfollow_or_cancel db actor t = (.notFound "User not found", db) ∧
    get_profile db viewer t = .notFound ∧
    check_status db actor t = none := by
  simp [followers_list, following_list, user_posts_list, request_follow,
    unfollow_or_cancel, get_profile, check_status, h]

lemma stepThread_inv (rows other : Nat) (p : Phase)
    (hrows : rows ≤ 1) (hcount : rows = okInd p + other)
    (hf : failedPhase p → rows = 1) :
    (stepThread rows p).1 ≤ 1 ∧
    (stepThread rows p).1 = okInd (stepThread rows p).2 + other ∧
    (failedPhase (stepThread rows p).2 → (stepThread rows p).1 = 1) ∧
    rows ≤ (stepThread rows p).1 := by
  cases p with
  | start =>
    simp [okInd] at hcount
    by_cases hz : rows = 0
    · simp [stepThread, hz, okInd, failedPhase]
      omega
    · simp [stepThread, hz, okInd, failedPhase]
      omega
  | checked =>
    simp [okInd] at hcount
    by_cases hz : rows = 0
    · simp [stepThread, hz, okInd, failedPhase]
      omega
    · simp [stepThread, hz, okInd, failedPhase]
      omega
  | finished r =>
    simp only [stepThread]
    exact ⟨hrows, hcount, hf, Nat.le_refl _⟩

lemma raceInv_step (s : RaceState) (w : Bool) (h : RaceInv s) : RaceInv (raceStep s w) := by
  obtain ⟨hrows, hcount, hf1, hf2⟩ := h
  cases w with
  | true =>
    obtain ⟨k1, k2, k3, k4⟩ := stepThread_inv s.rows (okInd s.t2) s.t1 hrows hcount hf1
    refine ⟨?_, ?_, ?_, ?_⟩ <;> simp only [raceStep, if_true]
    · exact k1
    · exact k2
    · exact k3
    · intro hh
      exact Nat.le_antisymm k1 (hf2 hh ▸ k4)
  | false =>
    have hcount2 : s.rows = okInd s.t2 + okInd s.t1 := by omega
    obtain ⟨k1, k2, k3, k4⟩ := stepThread_inv s.rows (okInd s.t1) s.t2 hrows hcount2 hf2
    refine ⟨?_, ?_, ?_, ?_⟩ <;> simp only [raceStep, Bool.false_eq_true, if_false]
    · exact k1
    · omega
    · intro hh
      exact Nat.le_antisymm k1 (hf1 hh ▸ k4)
    · exact k3

lemma raceInv_run (sched : List Bool) : RaceInv (raceRun sched) := by
  have hstep : ∀ s, RaceInv s → RaceInv (sched.foldl raceStep s) := by
    induction sched with
    | nil => exact fun s h => h
    | cons w rest ih => exact fun s h => ih _ (raceInv_step s w h)
  refine hstep ⟨0, .start, .start⟩ ⟨by simp, by simp [okInd], ?_, ?_⟩ <;>
    simp [failedPhase]

/-- C9 counterexample: in the interleaving where both existence checks
run before both INSERTs — possible because the handler opens no
transaction around the check-then-create sequence — the losing call does
not observe the claimed conflict error: its INSERT is rejected by the
unique constraint and surfaces as an unhandled integrity error, while
exactly one row is persisted. -/
theorem c9_counterexample :
    (raceRun [true, false, true, false]).t1 = .finished .ok ∧
    (raceRun [true, false, true, false]).t2 = .finished .integrityError ∧
    (raceRun [true, false, true, false]).rows = 1 ∧
    ReqResult.integrityError ≠ ReqResult.conflict := by decide

/-- C9 amended: under every interleaving of the two calls, at most one
FollowRequest row is persisted — the unique (requester, recipient)
constraint, not the existence check, excludes the duplicate — and when
both calls finish, exactly one succeeds; the loser observes either the
400 conflict (when its existence check runs after the winner's INSERT) or
an unhandled integrity error (when both checks precede both INSERTs), so
the check-then-create sequence is not atomic and the loser is not
guaranteed the conflict response. -/
theorem c9_race_exclusion (sched : List Bool) (r1 r2 : ReqResult)
    (h1 : (raceRun sched).t1 = .finished r1) (h2 : (raceRun sched).t2 = .finished r2) :
    (raceRun sched).rows ≤ 1 ∧
    ((r1 = .ok ∧ r2 ≠ .ok) ∨ (r2 = .ok ∧ r1 ≠ .ok)) := by
  obtain ⟨hrows, hcount, hf1, hf2⟩ := raceInv_run sched
  refine ⟨hrows, ?_⟩
  rw [h1] at hcount hf1
  rw [h2] at hcount hf2
  cases r1 <;> cases r2 <;>
    simp [okInd, failedPhase] at hcount hf1 hf2 ⊢ <;> omega

/-- Witness for C9's amended theorem: the serialized schedule, where the
first call checks and inserts before the second call checks; the second
call then observes the 400 conflict. -/
theorem c9_race_exclusion_witness :
    (raceRun [true, true, false, false]).t1 = .finished .ok ∧
    (raceRun [true, true, false, false]).t2 = .finished .conflict ∧
    ((raceRun [true, true, false, false]).rows ≤ 1 ∧
      ((ReqResult.ok = .ok ∧ ReqResult.conflict ≠ .ok) ∨
        (ReqResult.conflict = .ok ∧ ReqResult.ok ≠ .ok))) :=
  ⟨by decide, by decide,
    c9_race_exclusion [true, true, false, false] .ok .conflict (by decide) (by decide)⟩

/-- Witness for C2: in the three-user database with an empty ledger,
user 1 requesting to follow the private user 2 leaves the pair in the
requested state. -/
theorem c2_request_follow_success_witness :
    findUser dbW 1 = some accA ∧ findUser dbW 2 = some accB ∧ (1 : Nat) ≠ 2 ∧
    (1, 2) ∉ dbW.follows ∧ (1, 2) ∉ dbW.requests ∧ accB.is_private = true ∧
    check_status (request_follow dbW 1 2).2 1 2 = some .requested :=
  ⟨by decide, by decide, by decide, by decide, by decide, by decide,
    (((c2_request_follow_success dbW 1 2 accA accB (by decide) (by decide) (by decide)
      (by decide) (by decide)).1) (by decide)).2.2.2.2.2.2⟩

/-- Witness for C3: accepting the pending request from user 1 leaves the
pair in the following state. -/
theorem c3_accept_request_witness :
    findUser dbReq 1 = some accA ∧ findUser dbReq 2 = some accB ∧ (1 : Nat) ≠ 2 ∧
    (1, 2) ∈ dbReq.requests ∧
    check_status (accept_request dbReq 2 1).2 1 2 = some .following :=
  ⟨by decide, by decide, by decide, by decide,
    ((c3_accept_request dbReq 1 2 accA accB (by decide) (by decide) (by decide)).2
      (by decide)).2.2.2.1⟩

/-- Witness for C4's amended theorem: the authenticated user 1, holding
no edge onto the private user 2, is rejected with the private-account
error. -/
theorem c4_profile_visibility_witness :
    findUser dbW 2 = some accB ∧ (some 1 : Option Nat) = some 1 ∧ (1 : Nat) ≠ 2 ∧
    accB.is_private = true ∧ (1, 2) ∉ dbW.follows ∧
    get_profile dbW (some 1) 2 = .forbidden "This account is private" :=
  ⟨by decide, rfl, by decide, by decide, by decide,
    (c4_profile_visibility dbW (some 1) 2 accB (by decide)).1 1 rfl
      (by decide) (by decide) (by decide)⟩

/-- Witness for C5's amended theorem: the followers list of the private
user 2 succeeds empty for the authenticated, unauthorized user 1. -/
theorem c5_list_visibility_witness :
    findUser dbW 2 = some accB ∧ (some 1 : Option Nat) = some 1 ∧ (1 : Nat) ≠ 2 ∧
    accB.is_private = true ∧ (1, 2) ∉ dbW.follows ∧
    followers_list dbW (some 1) 2 = .ok [] :=
  ⟨by decide, rfl, by decide, by decide, by decide,
    ((c5_list_visibility dbW (some 1) 2 accB (by decide)).1 1 rfl
      (by decide) (by decide) (by decide)).1⟩

/-- Witness for C6: request then cancel on the empty ledger restores the
empty ledger. -/
theorem c6_round_trip_witness :
    findUser dbW 2 = some accB ∧ (1 : Nat) ≠ 2 ∧
    (1, 2) ∉ dbW.follows ∧ (1, 2) ∉ dbW.requests ∧
    ((unfollow_or_cancel (request_follow dbW 1 2).2 1 2).2.follows = dbW.follows ∧
      (unfollow_or_cancel (request_follow dbW 1 2).2 1 2).2.requests = dbW.requests) :=
  ⟨by decide, by decide, by decide, by decide,
    c6_round_trip dbW 1 2 accB (by decide) (by decide) (by decide) (by decide)⟩

/-- Witness for C7: the four error cases at concrete inputs — nonexistent
target 99, self-follow by user 1, an existing edge from user 1 to user 3,
and an existing request from user 1 to user 2. -/
theorem c7_request_follow_errors_witness :
    findUser dbW 99 = none ∧
    request_follow dbW 1 99 = (.notFound "User not found", dbW) ∧
    findUser dbW 1 = some accA ∧
    request_follow dbW 1 1 = (.badRequest "Cannot follow yourself", dbW) ∧
    (1, 3) ∈ dbEdge.follows ∧
    request_follow dbEdge 1 3 = (.badRequest "Already following", dbEdge) ∧
    (1, 2) ∈ dbReq.requests ∧
    request_follow dbReq 1 2 = (.badRequest "Follow request already sent", dbReq) :=
  ⟨by decide, (c7_request_follow_errors dbW 1 99).1 (by decide),
    by decide, (c7_request_follow_errors dbW 1 1).2.1 accA (by decide) (by decide),
    by decide,
    (c7_request_follow_errors dbEdge 1 3).2.2.1 accC (by decide) (by decide) (by decide),
    by decide,
    (c7_request_follow_errors dbReq 1 2).2.2.2 accB (by decide) (by decide) (by decide)
      (by decide)⟩

/-- Witness for C8: user 2 marks their follow-request notification read. -/
theorem c8_notification_read_marking_witness :
    notifA ∈ dbNotif.notifs ∧ (dbNotif.notifs.map (fun x => x.nid)).Nodup ∧
    (2 : Nat) = notifA.recipient ∧
    (mark_read dbNotif 2 notifA.nid).1 = .ok "Notification marked as read" :=
  ⟨by decide, by decide, by decide,
    ((c8_notification_read_marking dbNotif 2 notifA (by decide) (by decide)).1 (by decide)).1⟩

/-- Witness for C10: id 99 resolves to no user; the list reads are empty
while the workflow reads are 404. -/
theorem c10_nonexistent_target_witness :
    findUser dbW 99 = none ∧
    (followers_list dbW (some 1) 99 = .ok [] ∧ following_list dbW (some 1) 99 = .ok [] ∧
      user_posts_list dbW (some 1) 99 = .ok [] ∧
      request_follow dbW 1 99 = (.notFound "User not found", dbW) ∧
      unfollow_or_cancel dbW 1 99 = (.notFound "User not found", dbW) ∧
      get_profile dbW (some 1) 99 = .notFound ∧
      check_status dbW 1 99 = none) :=
  ⟨by decide, c10_nonexistent_target dbW (some 1) 1 99 (by decide)⟩

end Instagram
